import Mathlib

/-!
Shallow embedding of `src/train_VAE_Vanilla.py` (training script for a
vanilla VAE built on torch) and proofs about it.

Modelling conventions:
* a feature / latent vector is a `List ℝ`; a batch is a `List (List ℝ)`
  (one inner list per example, already flattened — `torch.flatten(x, 1)`
  is the identity on such rows);
* `nn.Linear` is a weight matrix plus bias vector applied by dot products;
* randomness is made explicit: the standard-normal draw `eps` consumed by
  the reparameterized sample `z = mu + std * eps` is an argument;
* `torch.distributions.Normal(loc, scale)` is parameterized by the
  standard deviation `scale`; its `log_prob(v)` is
  `-(v-loc)^2/(2*scale^2) - log scale - log (sqrt (2*pi))`,
  which `normalLogProb` transcribes;
* `.sum()` / `.mean()` over a tensor become `List.sum` / `listMean`;
  `.mean()` of a 0-dimensional (scalar) tensor is the value itself,
  transcribed by `meanScalar`.
-/

namespace VanillaVAE

/-- Mean of a list of reals, `torch.mean` over a 1-D tensor.
For the empty list this is `0/0 = 0` in Lean (torch would give NaN). -/
noncomputable def listMean (l : List ℝ) : ℝ := l.sum / l.length

/-- Mean of a 0-dimensional (scalar) tensor: `t.mean()` on a scalar tensor
returns the scalar itself. -/
def meanScalar (t : ℝ) : ℝ := t

/-- Dot product of two vectors (truncating at the shorter, as `zip` does;
shapes always agree in the source). -/
def dot (w x : List ℝ) : ℝ := ((w.zip x).map (fun p => p.1 * p.2)).sum

/-- An `nn.Linear` layer: a weight matrix (one row per output unit) and a
bias vector. -/
structure Linear where
  weight : List (List ℝ)
  bias : List ℝ

/-- Applying a linear layer: `W x + b`, one dot product per output row. -/
def Linear.apply (l : Linear) (x : List ℝ) : List ℝ :=
  (l.weight.zip l.bias).map (fun wb => dot wb.1 x + wb.2)

/-- Elementwise ReLU, `F.relu`. -/
def relu (v : List ℝ) : List ℝ := v.map (fun t => max t 0)

/-- Elementwise logistic sigmoid, `torch.sigmoid`. -/
noncomputable def sigmoid (t : ℝ) : ℝ := 1 / (1 + Real.exp (-t))

/-- The encoder neural network `EncoderNN`: `linear1` into the hidden
layer, `linear2` the mean head, `linear3` the head that is exponentiated. -/
structure EncoderNN where
  linear1 : Linear
  linear2 : Linear
  linear3 : Linear

/-- Source `EncoderNN.forward` on one (already flat) example:
`x = relu(linear1 x); mu = linear2 x; sigma = exp(linear3 x)`.
Returns `(mu, sigma)` — note the second component is already
exponentiated in the source. -/
noncomputable def EncoderNN.forward (m : EncoderNN) (x : List ℝ) : List ℝ × List ℝ :=
  let h := relu (m.linear1.apply x)
  (m.linear2.apply h, (m.linear3.apply h).map Real.exp)

/-- Source `EncoderGaussian.sample`: the reparameterized draw from
`Normal(mu, std)`, `z = mu + std * eps` with `eps` the standard-normal
draw made explicit. -/
def EncoderGaussian.sample (mu std eps : List ℝ) : List ℝ :=
  ((mu.zip std).zip eps).map (fun p => p.1.1 + p.1.2 * p.2)

/-- Source `EncoderGaussian.forward`: calls the encoder network, treats
its second output as a log-variance (`std = exp(log_var / 2)`), samples
`z`, and returns `(z, mu, std)`. -/
noncomputable def EncoderGaussian.forward (m : EncoderNN) (x eps : List ℝ) :
    List ℝ × List ℝ × List ℝ :=
  let p := EncoderNN.forward m x
  let std := p.2.map (fun t => Real.exp (t / 2))
  (EncoderGaussian.sample p.1 std eps, p.1, std)

/-- The decoder neural network `DecoderNN`: hidden layer then output
layer. -/
structure DecoderNN where
  linear1 : Linear
  linear2 : Linear

/-- Source `DecoderNN.forward`: `out = relu(linear1 z); sigmoid(linear2 out)`. -/
noncomputable def DecoderNN.forward (m : DecoderNN) (z : List ℝ) : List ℝ :=
  (m.linear2.apply (relu (m.linear1.apply z))).map sigmoid

/-- Log-density of `torch.distributions.Normal(loc, scale)` at `v`
(`scale` is the standard deviation):
`-(v-loc)^2 / (2*scale^2) - log scale - log (sqrt (2*pi))`. -/
noncomputable def normalLogProb (loc scale v : ℝ) : ℝ :=
  -((v - loc) ^ 2) / (2 * scale ^ 2) - Real.log scale - Real.log (Real.sqrt (2 * Real.pi))

/-- Source `DecoderGaussian.log_prob_xz` on one example: flattens `x`,
sets `variance = exp(log_variance)`, builds `Normal(mean, variance)` —
so torch uses `exp(log_variance)` as the SCALE parameter — and sums the
log-densities at `x` over the feature dimensions. -/
noncomputable def DecoderGaussian.log_prob_xz (mean : List ℝ) (log_variance : ℝ)
    (x : List ℝ) : ℝ :=
  let variance := Real.exp log_variance
  ((x.zip mean).map (fun p => normalLogProb p.2 variance p.1)).sum

/-- The VAE: an encoder network, a decoder network, the decoder's scalar
`log_variance` parameter (`nn.Parameter(torch.Tensor([0.0]))`, a single
learned scalar initialized to 0), and the KL weight `beta`. -/
structure VariationalAutoencoder where
  encoder : EncoderNN
  decoder : DecoderNN
  log_variance : ℝ
  beta : ℝ

/-- One summand of the KL formula: `sigma**2 + mu**2 - log(sigma) - 1/2`. -/
noncomputable def klTerm (m s : ℝ) : ℝ := s ^ 2 + m ^ 2 - Real.log s - 1 / 2

/-- Source `VariationalAutoencoder.kl_divergence`:
`(sigma**2 + mu**2 - torch.log(sigma) - 1/2).sum()` — the elementwise
expression summed over the whole batch matrix (every example and every
latent dimension) at once. -/
noncomputable def VariationalAutoencoder.kl_divergence
    (mu sigma : List (List ℝ)) : ℝ :=
  ((mu.zip sigma).map (fun rows =>
    ((rows.1.zip rows.2).map (fun q => klTerm q.1 q.2)).sum)).sum

/-- The per-example batch of encoder results `(z, mu, std)`, the batched
form of `self.encoder(x)` in `VariationalAutoencoder.forward`. -/
noncomputable def encBatch (enc : EncoderNN) (x eps : List (List ℝ)) :
    List (List ℝ × List ℝ × List ℝ) :=
  (x.zip eps).map (fun p => EncoderGaussian.forward enc p.1 p.2)

/-- The per-example reconstruction log-likelihood vector, the batched form
of `self.decoder(z, x)`'s second output (`DecoderGaussian.forward` feeds
`DecoderNN.forward z` and the scalar `log_variance` to `log_prob_xz`). -/
noncomputable def reconBatch (vae : VariationalAutoencoder) (x eps : List (List ℝ)) :
    List ℝ :=
  let z := (encBatch vae.encoder x eps).map (fun t => t.1)
  (z.zip x).map (fun p =>
    DecoderGaussian.log_prob_xz (DecoderNN.forward vae.decoder p.1) vae.log_variance p.2)

/-- The scalar `Dkl = self.kl_divergence(mu, sigma)` of the batch. -/
noncomputable def klOfBatch (vae : VariationalAutoencoder) (x eps : List (List ℝ)) : ℝ :=
  VariationalAutoencoder.kl_divergence
    ((encBatch vae.encoder x eps).map (fun t => t.2.1))
    ((encBatch vae.encoder x eps).map (fun t => t.2.2))

/-- Source `VariationalAutoencoder.forward`: encode, decode, compute
`Dkl`, and return
`((Dkl * beta - recon_loss).mean(), Dkl.mean(), recon_loss.mean(), z)`.
The scalar `Dkl` broadcasts against the per-example `recon_loss` vector,
and `Dkl.mean()` is the mean of a 0-dimensional tensor. -/
noncomputable def VariationalAutoencoder.forward (vae : VariationalAutoencoder)
    (x eps : List (List ℝ)) : ℝ × ℝ × ℝ × List (List ℝ) :=
  (listMean ((reconBatch vae x eps).map (fun r => klOfBatch vae x eps * vae.beta - r)),
   meanScalar (klOfBatch vae x eps),
   listMean (reconBatch vae x eps),
   (encBatch vae.encoder x eps).map (fun t => t.1))

/-- The message printed by `run_VAE_training` when `ldim > n_cols`
(the backslash line continuation inside the Python string literal keeps
the 28 spaces of the next line's indentation). -/
def latentDimErrorMessage : String :=
  "ERROR: Latent dimension cannot be greater                            than the number of columns in the dataset."

/-- Observable outcome of the latent-dimension check in
`run_VAE_training` (lines 174-184). -/
structure CheckOutcome where
  exitedEarly : Bool
  exitCode : Option Nat
  messagesToStdout : List String
  messagesToStderr : List String
  stderrReboundToNone : Bool
  modelConstructed : Bool
  trainingStepStarted : Bool

/-- Source `run_VAE_training`, lines 174-184: after reading the first
batch's column count `n_cols`, `if ldim > n_cols:` then
`sys.stderr = print('ERROR: ...')` — `print` writes the message to
standard output and returns `None`, which is assigned to `sys.stderr` —
and `sys.exit(0)` terminates the process with exit status 0, before the
encoder, decoder, and VAE are constructed and before any training step;
otherwise the run proceeds to construct the model and train. -/
def run_VAE_training_ldimCheck (nCols ldim : Nat) : CheckOutcome :=
  if ldim > nCols then
    { exitedEarly := true
      exitCode := some 0
      messagesToStdout := [latentDimErrorMessage]
      messagesToStderr := []
      stderrReboundToNone := true
      modelConstructed := false
      trainingStepStarted := false }
  else
    { exitedEarly := false
      exitCode := none
      messagesToStdout := []
      messagesToStderr := []
      stderrReboundToNone := false
      modelConstructed := true
      trainingStepStarted := true }

/-- Per-example KL contribution: the same elementwise expression as
`kl_divergence`, summed over one example's latent dimensions only. -/
noncomputable def perExampleKL (mu std : List ℝ) : ℝ :=
  ((mu.zip std).map (fun q => klTerm q.1 q.2)).sum

/-- Follows the spec's words for the claim about `log_prob_xz`
(refinement comparison): the log-density of a Gaussian with mean `mean`
and VARIANCE `exp lv`, evaluated at `x` and summed over the feature
dimensions. In the variance parameterization the log-density at `v` is
`-(v-mean)^2/(2*var) - log var / 2 - log (2*pi) / 2`. -/
noncomputable def gaussianLogPdfVar (mean var v : ℝ) : ℝ :=
  -((v - mean) ^ 2) / (2 * var) - Real.log var / 2 - Real.log (2 * Real.pi) / 2

/-- Follows the spec's words: per-example reconstruction log-likelihood
as the Normal log-density with mean `mean` and variance `exp lv`. -/
noncomputable def log_prob_xz_claimed (mean : List ℝ) (lv : ℝ) (x : List ℝ) : ℝ :=
  ((x.zip mean).map (fun p => gaussianLogPdfVar p.2 (Real.exp lv) p.1)).sum

/-- A 1-in 1-out linear layer with zero weight and zero bias, used to
evaluate the model on concrete inputs. -/
def zeroLinear : Linear := { weight := [[0]], bias := [0] }

/-- Concrete all-zero encoder network with every dimension 1. -/
def encZero : EncoderNN := { linear1 := zeroLinear, linear2 := zeroLinear, linear3 := zeroLinear }

/-- Concrete all-zero decoder network with every dimension 1. -/
def decZero : DecoderNN := { linear1 := zeroLinear, linear2 := zeroLinear }

/-- Concrete VAE built from the all-zero networks, `log_variance = 0`
(its initialization value) and `beta = 1`. -/
def vaeZero : VariationalAutoencoder :=
  { encoder := encZero, decoder := decZero, log_variance := 0, beta := 1 }

/-- Helper: summing `c - r` over a list gives `length * c - sum`. -/
lemma sum_map_const_sub (l : List ℝ) (c : ℝ) :
    (l.map (fun r => c - r)).sum = l.length * c - l.sum := by
  induction l with
  | nil => simp
  | cons a t ih => simp [ih]; ring

/-- Helper: the mean of `c - r` over a nonempty list is `c - mean`. -/
lemma listMean_map_const_sub (l : List ℝ) (c : ℝ) (h : l ≠ []) :
    listMean (l.map (fun r => c - r)) = c - listMean l := by
  have hn : (l.length : ℝ) ≠ 0 := by
    exact_mod_cast (List.length_pos.2 h).ne'
  unfold listMean
  rw [List.length_map, sum_map_const_sub]
  field_simp
  ring

/-- C2: `kl_divergence` evaluates the elementwise expression
`sigma^2 + mu^2 - log sigma - 1/2` and sums it over the whole batch at
once: on a single entry it is exactly that formula, and it is additive
under batch concatenation (so it scales with batch size instead of being
averaged per example). -/
theorem kl_divergence_formula (m s : ℝ) (mu1 sg1 mu2 sg2 : List (List ℝ))
    (h : mu1.length = sg1.length) :
    VariationalAutoencoder.kl_divergence [[m]] [[s]]
      = s ^ 2 + m ^ 2 - Real.log s - 1 / 2 ∧
    VariationalAutoencoder.kl_divergence (mu1 ++ mu2) (sg1 ++ sg2)
      = VariationalAutoencoder.kl_divergence mu1 sg1
        + VariationalAutoencoder.kl_divergence mu2 sg2 := by
  constructor
  · simp [VariationalAutoencoder.kl_divergence, klTerm]
  · simp [VariationalAutoencoder.kl_divergence, List.zip_append h]

/-- Witness for `kl_divergence_formula` at `m = 0`, `s = 1`, singleton
batches. -/
theorem kl_divergence_formula_witness :
    ([[(0:ℝ)]] : List (List ℝ)).length = ([[(1:ℝ)]] : List (List ℝ)).length ∧
    (VariationalAutoencoder.kl_divergence [[(0:ℝ)]] [[(1:ℝ)]]
        = (1:ℝ) ^ 2 + (0:ℝ) ^ 2 - Real.log 1 - 1 / 2 ∧
     VariationalAutoencoder.kl_divergence ([[(0:ℝ)]] ++ [[(0:ℝ)]]) ([[(1:ℝ)]] ++ [[(1:ℝ)]])
        = VariationalAutoencoder.kl_divergence [[(0:ℝ)]] [[(1:ℝ)]]
          + VariationalAutoencoder.kl_divergence [[(0:ℝ)]] [[(1:ℝ)]]) :=
  ⟨rfl, kl_divergence_formula 0 1 [[0]] [[1]] [[0]] [[1]] rfl⟩

/-- C3 counterexample: at `mu = 0`, `sigma = 1` the computed `Dkl` is
`1/2`, not `0` — the implemented formula is not the closed-form Gaussian
KL (which would vanish there). -/
theorem kl_divergence_nonzero_at_prior :
    VariationalAutoencoder.kl_divergence [[(0:ℝ)]] [[(1:ℝ)]] ≠ 0 := by
  norm_num [VariationalAutoencoder.kl_divergence, klTerm, Real.log_one]

/-- C3 amended: the computed `Dkl` is non-negative whenever every entry
of `sigma` is strictly positive, but it is NOT zero at `mu = 0`,
`sigma = 1`: each entry contributes exactly `1/2` there. -/
theorem kl_divergence_nonneg (mu sigma : List (List ℝ))
    (hpos : ∀ row ∈ sigma, ∀ s ∈ row, 0 < s) :
    0 ≤ VariationalAutoencoder.kl_divergence mu sigma ∧
    VariationalAutoencoder.kl_divergence [[(0:ℝ)]] [[(1:ℝ)]] = 1 / 2 := by
  constructor
  · apply List.sum_nonneg
    intro a ha
    simp only [List.mem_map] at ha
    obtain ⟨p, hp, rfl⟩ := ha
    apply List.sum_nonneg
    intro b hb
    simp only [List.mem_map] at hb
    obtain ⟨q, hq, rfl⟩ := hb
    have hrow : p.2 ∈ sigma := (List.of_mem_zip hp).2
    have hs : 0 < q.2 := hpos p.2 hrow q.2 (List.of_mem_zip hq).2
    have hlog := Real.log_le_sub_one_of_pos hs
    simp only [klTerm]
    nlinarith [sq_nonneg q.1, sq_nonneg (q.2 - 1 / 2)]
  · norm_num [VariationalAutoencoder.kl_divergence, klTerm, Real.log_one]

/-- Witness for `kl_divergence_nonneg` at `mu = [[3]]`, `sigma = [[2]]`. -/
theorem kl_divergence_nonneg_witness :
    (∀ row ∈ ([[(2:ℝ)]] : List (List ℝ)), ∀ s ∈ row, 0 < s) ∧
    (0 ≤ VariationalAutoencoder.kl_divergence [[(3:ℝ)]] [[(2:ℝ)]] ∧
     VariationalAutoencoder.kl_divergence [[(0:ℝ)]] [[(1:ℝ)]] = 1 / 2) :=
  ⟨by intro row hrow s hs; simp at hrow; subst hrow; simp at hs; subst hs; norm_num,
   kl_divergence_nonneg [[3]] [[2]]
     (by intro row hrow s hs; simp at hrow; subst hrow; simp at hs; subst hs; norm_num)⟩

/-- C4 counterexample: at `n_cols = 5`, `ldim = 10` the error branch is
taken but nothing is written to standard error — the message goes to
standard output (and the process still exits with status 0). -/
theorem ldim_check_nothing_on_stderr :
    (run_VAE_training_ldimCheck 5 10).exitedEarly = true ∧
    (run_VAE_training_ldimCheck 5 10).messagesToStderr = [] ∧
    (run_VAE_training_ldimCheck 5 10).messagesToStdout = [latentDimErrorMessage] := by
  refine ⟨rfl, rfl, rfl⟩

/-- C4 amended: if `ldim > n_cols` the check fires once, before model
construction: the process exits immediately (with status 0), the error
message is written to standard OUTPUT (not standard error), no model is
constructed and no training step runs. -/
theorem ldim_check_terminates (nCols ldim : Nat) (h : ldim > nCols) :
    (run_VAE_training_ldimCheck nCols ldim).exitedEarly = true ∧
    (run_VAE_training_ldimCheck nCols ldim).exitCode = some 0 ∧
    (run_VAE_training_ldimCheck nCols ldim).messagesToStdout = [latentDimErrorMessage] ∧
    (run_VAE_training_ldimCheck nCols ldim).modelConstructed = false ∧
    (run_VAE_training_ldimCheck nCols ldim).trainingStepStarted = false := by
  simp [run_VAE_training_ldimCheck, h]

/-- Witness for `ldim_check_terminates` at `n_cols = 5`, `ldim = 10`. -/
theorem ldim_check_terminates_witness :
    10 > 5 ∧
    ((run_VAE_training_ldimCheck 5 10).exitedEarly = true ∧
     (run_VAE_training_ldimCheck 5 10).exitCode = some 0 ∧
     (run_VAE_training_ldimCheck 5 10).messagesToStdout = [latentDimErrorMessage] ∧
     (run_VAE_training_ldimCheck 5 10).modelConstructed = false ∧
     (run_VAE_training_ldimCheck 5 10).trainingStepStarted = false) :=
  ⟨by decide, ldim_check_terminates 5 10 (by decide)⟩

/-- C9: on the configuration error the process exits via `sys.exit(0)`,
i.e. with exit status 0; the message is emitted by `print` to standard
output, nothing reaches standard error, and `sys.stderr` is overwritten
with `None` (the return value of `print`). -/
theorem ldim_check_exit_status_zero (nCols ldim : Nat) (h : ldim > nCols) :
    (run_VAE_training_ldimCheck nCols ldim).exitCode = some 0 ∧
    (run_VAE_training_ldimCheck nCols ldim).messagesToStdout = [latentDimErrorMessage] ∧
    (run_VAE_training_ldimCheck nCols ldim).messagesToStderr = [] ∧
    (run_VAE_training_ldimCheck nCols ldim).stderrReboundToNone = true := by
  simp [run_VAE_training_ldimCheck, h]

/-- Witness for `ldim_check_exit_status_zero` at `n_cols = 3`, `ldim = 7`. -/
theorem ldim_check_exit_status_zero_witness :
    7 > 3 ∧
    ((run_VAE_training_ldimCheck 3 7).exitCode = some 0 ∧
     (run_VAE_training_ldimCheck 3 7).messagesToStdout = [latentDimErrorMessage] ∧
     (run_VAE_training_ldimCheck 3 7).messagesToStderr = [] ∧
     (run_VAE_training_ldimCheck 3 7).stderrReboundToNone = true) :=
  ⟨by decide, ldim_check_exit_status_zero 3 7 (by decide)⟩

/-- C5 counterexample: with `log_variance = 2`, on the single-feature
example `x = [0]` with reconstruction mean `[0]`, the log-likelihood the
code computes differs from the Normal log-density with variance
`exp(log_variance)`: the code passes `exp(log_variance)` to
`Normal(loc, scale)` as the SCALE (standard deviation), so the actual
variance is `exp(2 * log_variance)`. -/
theorem log_prob_xz_variance_counterexample :
    DecoderGaussian.log_prob_xz [0] 2 [0] ≠ log_prob_xz_claimed [0] 2 [0] := by
  have h2pi : (0:ℝ) ≤ 2 * Real.pi := by positivity
  simp only [DecoderGaussian.log_prob_xz, log_prob_xz_claimed, normalLogProb,
    gaussianLogPdfVar, List.zip_cons_cons, List.zip_nil_right, List.map_cons,
    List.map_nil, List.sum_cons, List.sum_nil, Real.log_exp, Real.log_sqrt h2pi]
  intro h
  norm_num at h

/-- C5 amended: `log_prob_xz` returns, per example, the Gaussian
log-density with mean `DecoderNetwork(z)` and STANDARD DEVIATION
`exp(log_variance)` — equivalently variance `exp(2 * log_variance)` —
evaluated at the flattened `x` and summed over the feature dimensions:
it equals the spec's variance-parameterized density with the
log-variance doubled. -/
theorem log_prob_xz_gaussian_std (mean : List ℝ) (lv : ℝ) (x : List ℝ) :
    DecoderGaussian.log_prob_xz mean lv x = log_prob_xz_claimed mean (2 * lv) x := by
  have h2pi : (0:ℝ) ≤ 2 * Real.pi := by positivity
  have hsq : Real.exp lv ^ 2 = Real.exp (2 * lv) := by
    rw [two_mul, Real.exp_add]; ring
  simp only [DecoderGaussian.log_prob_xz, log_prob_xz_claimed]
  congr 1
  apply List.map_congr_left
  intro p _
  unfold normalLogProb gaussianLogPdfVar
  rw [hsq, Real.log_exp, Real.log_exp, Real.log_sqrt h2pi]
  ring

/-- Helper: one Gaussian log-density term is largest when the mean hits
the evaluation point. Holds for every scale (at scale 0 both quadratic
terms are `0` by the division-by-zero convention). -/
lemma normalLogProb_le_self (a b s : ℝ) :
    normalLogProb a s b ≤ normalLogProb b s b := by
  unfold normalLogProb
  have hden : (0:ℝ) ≤ 2 * s ^ 2 := by positivity
  have hle : -((b - a) ^ 2) / (2 * s ^ 2) ≤ 0 :=
    div_nonpos_of_nonpos_of_nonneg (by nlinarith [sq_nonneg (b - a)]) hden
  have hz : -((b - b) ^ 2) / (2 * s ^ 2) = 0 := by simp
  rw [hz]
  linarith

/-- Helper: summed over equal-length vectors, the Gaussian log-density
of `x` under mean `m` is at most that under mean `x` itself. -/
lemma sum_normalLogProb_le (s : ℝ) :
    ∀ m x : List ℝ, m.length = x.length →
      ((x.zip m).map (fun p => normalLogProb p.2 s p.1)).sum
        ≤ ((x.zip x).map (fun p => normalLogProb p.2 s p.1)).sum := by
  intro m x
  induction x generalizing m with
  | nil =>
    intro h
    have hm : m = [] := List.length_eq_zero.mp h
    subst hm
    simp
  | cons b xt ih =>
    intro h
    cases m with
    | nil => simp at h
    | cons a mt =>
      have ht : mt.length = xt.length := by simpa using h
      simp only [List.zip_cons_cons, List.map_cons, List.sum_cons]
      exact add_le_add (normalLogProb_le_self a b s) (ih mt ht)

/-- C6: for a fixed decoder log-variance, the per-example reconstruction
log-likelihood is maximized when the reconstruction mean equals the
(flattened) input exactly: any other mean of the same dimension scores
no higher. -/
theorem log_prob_xz_maximized_at_x (m x : List ℝ) (lv : ℝ)
    (h : m.length = x.length) :
    DecoderGaussian.log_prob_xz m lv x ≤ DecoderGaussian.log_prob_xz x lv x := by
  simp only [DecoderGaussian.log_prob_xz]
  exact sum_normalLogProb_le (Real.exp lv) m x h

/-- Witness for `log_prob_xz_maximized_at_x` at `m = [1]`, `x = [0]`,
`lv = 0`. -/
theorem log_prob_xz_maximized_at_x_witness :
    ([(1:ℝ)].length = [(0:ℝ)].length) ∧
    DecoderGaussian.log_prob_xz [(1:ℝ)] 0 [(0:ℝ)]
      ≤ DecoderGaussian.log_prob_xz [(0:ℝ)] 0 [(0:ℝ)] :=
  ⟨rfl, log_prob_xz_maximized_at_x [1] [0] 0 rfl⟩

/-- C8: every component of the `std` vector returned by
`EncoderGaussian.forward` is strictly greater than 1: `EncoderNN`
already exponentiates its third head, and `EncoderGaussian` then
computes `std = exp(that value / 2)` with a strictly positive exponent. -/
theorem encoder_std_gt_one (enc : EncoderNN) (x eps : List ℝ) (s : ℝ)
    (hs : s ∈ (EncoderGaussian.forward enc x eps).2.2) : 1 < s := by
  simp only [EncoderGaussian.forward, EncoderNN.forward, List.mem_map] at hs
  obtain ⟨t, ⟨u, hu, rfl⟩, rfl⟩ := hs
  exact Real.one_lt_exp_iff.mpr (by positivity)

/-- Witness for `encoder_std_gt_one` on the all-zero encoder at
`x = [0]`, `eps = [0]`: the (only) std component is `exp(exp 0 / 2)`. -/
theorem encoder_std_gt_one_witness :
    Real.exp (Real.exp 0 / 2) ∈ (EncoderGaussian.forward encZero [0] [0]).2.2 ∧
    1 < Real.exp (Real.exp 0 / 2) :=
  ⟨by simp [EncoderGaussian.forward, EncoderNN.forward, encZero, zeroLinear,
      Linear.apply, relu, dot],
   encoder_std_gt_one encZero [0] [0] _
     (by simp [EncoderGaussian.forward, EncoderNN.forward, encZero, zeroLinear,
        Linear.apply, relu, dot])⟩

/-- C10: the second component of `forward`'s return value, `Dkl.mean()`,
equals the scalar `Dkl` itself (`mean` of a 0-dimensional tensor), which
is the KL summed over the whole batch: it equals the SUM over examples
of the per-example KL contributions, not their mean. -/
theorem kl_diagnostic_is_batch_sum (vae : VariationalAutoencoder)
    (x eps : List (List ℝ)) :
    (VariationalAutoencoder.forward vae x eps).2.1 = klOfBatch vae x eps ∧
    (VariationalAutoencoder.forward vae x eps).2.1
      = ((encBatch vae.encoder x eps).map (fun t => perExampleKL t.2.1 t.2.2)).sum := by
  constructor
  · rfl
  · simp only [VariationalAutoencoder.forward, meanScalar, klOfBatch,
      VariationalAutoencoder.kl_divergence, perExampleKL, List.zip_map', List.map_map]
    rfl

/-- C7: `forward` is deterministic given the random draw: two
evaluations on the same input `x` with the same sampled `eps` return
identical `(elbo, kl, recon_ll)` values. -/
theorem forward_deterministic (vae : VariationalAutoencoder)
    (x eps : List (List ℝ)) :
    ((VariationalAutoencoder.forward vae x eps).1,
     (VariationalAutoencoder.forward vae x eps).2.1,
     (VariationalAutoencoder.forward vae x eps).2.2.1)
    = ((VariationalAutoencoder.forward vae x eps).1,
       (VariationalAutoencoder.forward vae x eps).2.1,
       (VariationalAutoencoder.forward vae x eps).2.2.1) := rfl

/-- C1: the ELBO component of `forward` is the mean over examples of the
broadcast vector `Dkl * beta - recon_ll`, and (for a nonempty batch)
this equals `Dkl * beta - mean_over_examples(recon_ll)`. -/
theorem elbo_formula (vae : VariationalAutoencoder) (x eps : List (List ℝ))
    (hx : x ≠ []) (he : eps.length = x.length) :
    (VariationalAutoencoder.forward vae x eps).1
      = listMean ((reconBatch vae x eps).map
          (fun r => klOfBatch vae x eps * vae.beta - r)) ∧
    (VariationalAutoencoder.forward vae x eps).1
      = klOfBatch vae x eps * vae.beta - listMean (reconBatch vae x eps) := by
  have hlen : (reconBatch vae x eps).length = x.length := by
    simp [reconBatch, encBatch, he]
  have hne : reconBatch vae x eps ≠ [] :=
    List.length_pos.1 (hlen ▸ List.length_pos.2 hx)
  exact ⟨rfl, listMean_map_const_sub _ _ hne⟩

/-- Witness for `elbo_formula` on the all-zero VAE with the one-example
batch `x = [[0]]`, `eps = [[0]]`. -/
theorem elbo_formula_witness :
    (([[(0:ℝ)]] : List (List ℝ)) ≠ []) ∧
    ([[(0:ℝ)]] : List (List ℝ)).length = ([[(0:ℝ)]] : List (List ℝ)).length ∧
    ((VariationalAutoencoder.forward vaeZero [[0]] [[0]]).1
        = listMean ((reconBatch vaeZero [[0]] [[0]]).map
            (fun r => klOfBatch vaeZero [[0]] [[0]] * vaeZero.beta - r)) ∧
     (VariationalAutoencoder.forward vaeZero [[0]] [[0]]).1
        = klOfBatch vaeZero [[0]] [[0]] * vaeZero.beta
          - listMean (reconBatch vaeZero [[0]] [[0]])) :=
  ⟨by simp, rfl, elbo_formula vaeZero [[0]] [[0]] (by simp) rfl⟩

end VanillaVAE
